import Mathlib

/-!
Shallow embedding of the block verification core of `chain/src/verifier/mod.rs`
(starcoin).  Pure data is modelled with `Nat` (u64 values, hashes) and lists;
fallible verification code returns `Except VError`.  The chain reader is a
record of read-only query functions; reader storage failures themselves are not
modelled, but the "block info absent" case (`Ok(None)` in the source) is, since
the verifier treats it specially.
-/

/-- Cryptographic hash values (`HashValue`), modelled abstractly as `Nat`. -/
abbrev Hash := Nat

/-- u64 saturating addition (`u64::saturating_add`). -/
def satAdd64 (a b : Nat) : Nat := min (a + b) (2 ^ 64 - 1)

/-- Modelled from the spec: `ALLOWED_FUTURE_BLOCKTIME` is a protocol constant
(milliseconds a block timestamp may run ahead of the local clock); the constant
is declared in `starcoin_types::block`, outside the sources at hand.  Its value
does not influence any claim. -/
def ALLOWED_FUTURE_BLOCKTIME : Nat := 30000

/-- The fields of `BlockHeader` the verifier reads.  `id` is the header's hash
(computed cryptographically in the source, carried as plain data here);
`parents_hash` is the optional DAG parent list. -/
structure BlockHeader where
  id : Hash
  parent_hash : Hash
  parents_hash : Option (List Hash)
  number : Nat
  timestamp : Nat
  gas_used : Nat
  body_hash : Hash
  block_accumulator_root : Hash
deriving DecidableEq, Repr

/-- A transaction, of which the verifier only inspects the sender. -/
structure Transaction where
  sender : Nat
deriving DecidableEq, Repr

/-- `BlockBody`: the transactions and the optional uncle headers. -/
structure BlockBody where
  transactions : List Transaction
  uncles : Option (List BlockHeader)
deriving DecidableEq, Repr

/-- `Block` = header + body. -/
structure Block where
  header : BlockHeader
  body : BlockBody
deriving DecidableEq, Repr

/-- `Block::uncles()`: the uncle list stored in the body. -/
def Block.uncles (b : Block) : Option (List BlockHeader) := b.body.uncles

/-- `Block::transactions()`. -/
def Block.transactions (b : Block) : List Transaction := b.body.transactions

/-- `AccumulatorInfo`, reduced to the root the verifier compares. -/
structure AccumulatorInfo where
  accumulator_root : Hash
deriving DecidableEq, Repr

/-- `BlockInfo`, reduced to the block-accumulator info the verifier reads. -/
structure BlockInfo where
  block_accumulator_info : AccumulatorInfo
deriving DecidableEq, Repr

/-- `ChainStatus` (`types/src/startup_info.rs`): head header plus block info. -/
structure ChainStatus where
  head : BlockHeader
  info : BlockInfo
deriving DecidableEq, Repr

/-- `Epoch` parameters the verifier reads. -/
structure Epoch where
  start_block_number : Nat
  end_block_number : Nat
  max_uncles_per_block : Nat
  block_gas_limit : Nat
deriving DecidableEq, Repr

/-- `ChainType`. -/
inductive ChainType where
  | Single
  | Dag
deriving DecidableEq, Repr

/-- The read-only `ChainReader` contract consumed by the verifier.  Each field
models one trait method; `fork` returns `none` when the fork cannot be built
(the `Err` case of the source's `fork`), and `now_millis` models
`time_service().now_millis()`. -/
structure ChainReader where
  status : ChainStatus
  current_header : BlockHeader
  epoch : Epoch
  epoch_uncles : List Hash
  exist_block : Hash → Bool
  has_dag_block : Hash → Bool
  get_block_info : Option Hash → Option BlockInfo
  fork : Hash → Option ChainReader
  check_chain_type : ChainType
  now_millis : Nat

/-- Verification failure field categories (`VerifyBlockField`). -/
inductive VerifyBlockField where
  | Body
  | Header
  | Uncle
  | Consensus
deriving DecidableEq, Repr

/-- Errors the verifier can surface.  `verifyBlockFailed` models
`ConnectBlockError::VerifyBlockFailed(field, msg)`; `consensusVerifyError`
models a bare `ConsensusVerifyError` inside an `anyhow::Error` (the only error
the Consensus verifier downcasts); `other` models any other opaque
`anyhow::Error`. -/
inductive VError where
  | verifyBlockFailed : VerifyBlockField → String → VError
  | consensusVerifyError : String → VError
  | other : String → VError
deriving DecidableEq, Repr

/-- The spec-modelled external world of the verifier: `bodyHash` models
`BlockBody::hash()` (a cryptographic hash, declared outside these sources);
`is_blacklisted` — Modelled from the spec: `AddressFilter::is_blacklisted(txn,
height)` of `starcoin_open_block` is not among the sources; the spec describes
it as the predicate "is the transaction's sender blacklisted at block height
N".  `strategyVerify` models `epoch.strategy().verify(reader, header)`, the
consensus proof-of-work check delegated through the epoch's strategy. -/
structure Env where
  bodyHash : BlockBody → Hash
  is_blacklisted : Transaction → Nat → Bool
  strategyVerify : ChainReader → BlockHeader → Except VError Unit

/-- The `verify_block!` macro: succeed when the condition holds, otherwise
return `VerifyBlockFailed(field, msg)`. -/
def verify_check (f : VerifyBlockField) (c : Prop) [Decidable c] (msg : String) :
    Except VError Unit :=
  if c then .ok () else .error (.verifyBlockFailed f msg)

/-- The `Verifier` selection enum. -/
inductive Verifier where
  | Basic
  | Consensus
  | Full
  | None
deriving DecidableEq, Repr

/-- `Verifier::variants()`. -/
def Verifier.variants : List String := ["basic", "consensus", "full", "none"]

/-- `impl FromStr for Verifier` (the source `match` rendered as an if-chain
over string equality). -/
def Verifier.fromStr (s : String) : Except String Verifier :=
  if s = "basic" then .ok .Basic
  else if s = "consensus" then .ok .Consensus
  else if s = "full" then .ok .Full
  else if s = "none" then .ok .None
  else .error ("invalid verifier type: " ++ s)

/-- `StaticVerifier::verify_body_hash`. -/
def StaticVerifier.verify_body_hash (env : Env) (block : Block) : Except VError Unit :=
  let body_hash := env.bodyHash block.body
  verify_check .Body (body_hash = block.header.body_hash)
    ("verify block body hash mismatch, expect: " ++ toString block.header.body_hash ++
      ", got: " ++ toString body_hash)

/-- The loop of `verify_blacklisted_txns`: fail with a `Body` error on the
first transaction whose sender is blacklisted at the block's height. -/
def blacklisted_txns_loop (env : Env) (block_number : Nat) :
    List Transaction → Except VError Unit
  | [] => .ok ()
  | txn :: rest => do
    verify_check .Body (env.is_blacklisted txn block_number = false)
      "Invalid block: the sender of transaction in block must be not blacklisted"
    blacklisted_txns_loop env block_number rest

/-- `BlockVerifier::verify_blacklisted_txns`. -/
def verify_blacklisted_txns (env : Env) (new_block : Block) : Except VError Unit :=
  blacklisted_txns_loop env new_block.header.number new_block.transactions

/-- `BlockVerifier::can_be_uncle`. -/
def can_be_uncle (current_chain : ChainReader) (block_header : BlockHeader) : Bool :=
  let epoch := current_chain.epoch
  let uncles := current_chain.epoch_uncles
  decide (epoch.start_block_number ≤ block_header.number)
    && decide (block_header.number < epoch.end_block_number)
    && current_chain.exist_block block_header.parent_hash
    && !current_chain.exist_block block_header.id
    && !uncles.contains block_header.id
    && decide (block_header.number ≤ current_chain.current_header.number)

/-- The per-uncle loop of the default `BlockVerifier::verify_uncles`:
`uncle_ids` is the set of already seen uncle ids (a list used only for
membership), `vh` is the enclosing strategy's `verify_header`. -/
def uncles_loop (vh : ChainReader → BlockHeader → Except VError Unit)
    (current_chain : ChainReader) (header : BlockHeader) (uncle_ids : List Hash) :
    List BlockHeader → Except VError Unit
  | [] => .ok ()
  | uncle :: rest => do
    let uncle_id := uncle.id
    verify_check .Uncle (uncle.id ∉ uncle_ids)
      ("repeat uncle " ++ toString uncle_id ++ " in current block " ++ toString header.id)
    verify_check .Uncle (uncle.number < header.number)
      ("uncle block number bigger than or equal to current block ,uncle block number is " ++
        toString uncle.number ++ " , current block number is " ++ toString header.number)
    verify_check .Uncle (can_be_uncle current_chain uncle = true)
      ("invalid block: block " ++ toString uncle_id ++ " can not be uncle.")
    match current_chain.fork uncle.parent_hash with
    | none => .error (.other "fork failed")
    | some uncle_branch => do
      vh uncle_branch uncle
      uncles_loop vh current_chain header (uncle_id :: uncle_ids) rest

/-- The default `BlockVerifier::verify_uncles`, parameterised by the enclosing
strategy's `verify_header` (the source's `Self::verify_header`). -/
def verify_uncles_default (vh : ChainReader → BlockHeader → Except VError Unit)
    (current_chain : ChainReader) (uncles : List BlockHeader) (header : BlockHeader) :
    Except VError Unit := do
  let epoch := current_chain.epoch
  -- epoch boundary block's uncles should be empty
  if header.number = epoch.end_block_number then
    verify_check .Uncle (uncles = [])
      "Invalid block: first block of epoch's uncles must be empty."
  if uncles = [] then
    pure ()
  else do
    verify_check .Uncle (uncles.length ≤ epoch.max_uncles_per_block)
      ("too many uncles " ++ toString uncles.length ++ " in block " ++ toString header.id)
    uncles_loop vh current_chain header [] uncles

/-- `VerifiedBlock`, produced only by a successful `verify_block`. -/
structure VerifiedBlock where
  block : Block
deriving DecidableEq, Repr

/-- The default `BlockVerifier::verify_block` composition: blacklist check,
strategy header check `vh`, body-hash check, strategy uncle check `vu`. -/
def verify_block_default (env : Env)
    (vh : ChainReader → BlockHeader → Except VError Unit)
    (vu : ChainReader → List BlockHeader → BlockHeader → Except VError Unit)
    (current_chain : ChainReader) (new_block : Block) : Except VError VerifiedBlock := do
  let new_block_header := new_block.header
  verify_blacklisted_txns env new_block
  vh current_chain new_block_header
  StaticVerifier.verify_body_hash env new_block
  vu current_chain (new_block.uncles.getD []) new_block_header
  pure (VerifiedBlock.mk new_block)

/-- `BasicVerifier::verify_header`. -/
def BasicVerifier.verify_header (current_chain : ChainReader)
    (new_block_header : BlockHeader) : Except VError Unit := do
  let new_block_parent := new_block_header.parent_hash
  let chain_status := current_chain.status
  let current := chain_status.head
  let current_id := current.id
  let expect_number := satAdd64 current.number 1
  verify_check .Header (expect_number = new_block_header.number)
    ("Invalid block: Unexpect block number, expect:" ++ toString expect_number ++
      ", got: " ++ toString new_block_header.number ++ ".")
  verify_check .Header (current_id = new_block_parent)
    ("Invalid block: Parent id mismatch, expect:" ++ toString current_id ++
      ", got: " ++ toString new_block_parent ++
      ", number:" ++ toString new_block_header.number ++ ".")
  verify_check .Header (current.timestamp < new_block_header.timestamp)
    ("Invalid block: block timestamp too old, parent time:" ++ toString current.timestamp ++
      ", block time: " ++ toString new_block_header.timestamp ++
      ", number:" ++ toString new_block_header.number ++ ".")
  let now := current_chain.now_millis
  verify_check .Header (new_block_header.timestamp ≤ satAdd64 ALLOWED_FUTURE_BLOCKTIME now)
    ("Invalid block: block timestamp too new, now:" ++ toString now ++
      ", block time:" ++ toString new_block_header.timestamp)
  let epoch := current_chain.epoch
  verify_check .Header (epoch.start_block_number < new_block_header.number ∧
      new_block_header.number ≤ epoch.end_block_number)
    ("block number is " ++ toString new_block_header.number ++
      ", epoch start number is " ++ toString epoch.start_block_number ++
      ", epoch end number is " ++ toString epoch.end_block_number)
  verify_check .Header (new_block_header.gas_used ≤ epoch.block_gas_limit)
    "invalid block: gas_used should not greater than block_gas_limit"
  match current_chain.get_block_info (some current_id) with
  | none => .error (.other ("Can not find block info by head id: " ++ toString current_id))
  | some current_block_info => do
    verify_check .Header
      (current_block_info.block_accumulator_info.accumulator_root =
        new_block_header.block_accumulator_root)
      ("Block accumulator root miss match " ++
        toString current_block_info.block_accumulator_info.accumulator_root ++
        " : " ++ toString new_block_header.block_accumulator_root)
    verify_check .Header (current_chain.check_chain_type = ChainType.Single ∧
        new_block_header.parents_hash.getD [] = [])
      ("Single chain block is invalid: number " ++ toString new_block_header.number ++
        " parents_hash len " ++ toString (new_block_header.parents_hash.map List.length))

/-- `ConsensusVerifier::verify_header`: delegate to the epoch strategy's
`verify`; on failure, wrap the error as a `Consensus` verification failure
exactly when it downcasts to `ConsensusVerifyError`, else propagate it. -/
def ConsensusVerifier.verify_header (env : Env) (current_chain : ChainReader)
    (new_block_header : BlockHeader) : Except VError Unit :=
  match env.strategyVerify current_chain new_block_header with
  | .error (.consensusVerifyError m) =>
      .error (.verifyBlockFailed .Consensus m)
  | .error e => .error e
  | .ok _ => .ok ()

/-- `FullVerifier::verify_header` = Basic then Consensus. -/
def FullVerifier.verify_header (env : Env) (current_chain : ChainReader)
    (new_block_header : BlockHeader) : Except VError Unit := do
  BasicVerifier.verify_header current_chain new_block_header
  ConsensusVerifier.verify_header env current_chain new_block_header

/-- `NoneVerifier::verify_header`. -/
def NoneVerifier.verify_header (_current_chain : ChainReader)
    (_new_block_header : BlockHeader) : Except VError Unit := .ok ()

/-- `NoneVerifier::verify_block` (overridden: accepts unconditionally). -/
def NoneVerifier.verify_block (_current_chain : ChainReader) (new_block : Block) :
    Except VError VerifiedBlock := .ok (VerifiedBlock.mk new_block)

/-- Removal of equal consecutive elements (`Vec::dedup`). -/
def dedupAdj : List Hash → List Hash
  | [] => []
  | [a] => [a]
  | a :: b :: rest => if a = b then dedupAdj (b :: rest) else a :: dedupAdj (b :: rest)

/-- `parents_hash_to_check.sort(); parents_hash_to_check.dedup()`: sort the
list (the algorithm is irrelevant; insertion sort here) and drop equal
neighbours. -/
def sortDedup (l : List Hash) : List Hash := dedupAdj (l.insertionSort (· ≤ ·))

/-- The `try_for_each` loop of `DagVerifier::verify_header`: every (deduped)
declared parent must already be a DAG block known to the reader. -/
def dag_parents_loop (current_chain : ChainReader) : List Hash → Except VError Unit
  | [] => .ok ()
  | parent_hash :: rest => do
    verify_check .Header (current_chain.has_dag_block parent_hash = true)
      ("Invalid block: parent " ++ toString parent_hash ++ " might not exist.")
    dag_parents_loop current_chain rest

/-- `DagVerifier::verify_header`. -/
def DagVerifier.verify_header (env : Env) (current_chain : ChainReader)
    (new_block_header : BlockHeader) : Except VError Unit := do
  let parents_hash := new_block_header.parents_hash.getD []
  let parents_hash_to_check := sortDedup parents_hash
  verify_check .Header
    (¬ parents_hash_to_check = [] ∧ parents_hash.length = parents_hash_to_check.length)
    ("Invalid parents_hash in dag verifier " ++ toString parents_hash ++
      " for a dag block " ++ toString new_block_header.number)
  verify_check .Header
    (new_block_header.parent_hash ∈ parents_hash_to_check ∧
      (current_chain.get_block_info (some new_block_header.parent_hash)).isSome = true)
    ("Invalid block: parent " ++ toString new_block_header.parent_hash ++ " might not exist.")
  dag_parents_loop current_chain parents_hash_to_check
  ConsensusVerifier.verify_header env current_chain new_block_header

/-- `DagVerifier::verify_uncles` (a no-op; the DAG uncle logic in the source is
commented out). -/
def DagVerifier.verify_uncles (_current_chain : ChainReader)
    (_uncles : List BlockHeader) (_header : BlockHeader) : Except VError Unit := .ok ()

/-- `BasicVerifier::verify_block` (the default composition). -/
def BasicVerifier.verify_block (env : Env) (current_chain : ChainReader)
    (new_block : Block) : Except VError VerifiedBlock :=
  verify_block_default env BasicVerifier.verify_header
    (verify_uncles_default BasicVerifier.verify_header) current_chain new_block

/-- `ConsensusVerifier::verify_block` (the default composition). -/
def ConsensusVerifier.verify_block (env : Env) (current_chain : ChainReader)
    (new_block : Block) : Except VError VerifiedBlock :=
  verify_block_default env (ConsensusVerifier.verify_header env)
    (verify_uncles_default (ConsensusVerifier.verify_header env)) current_chain new_block

/-- `FullVerifier::verify_block` (the default composition). -/
def FullVerifier.verify_block (env : Env) (current_chain : ChainReader)
    (new_block : Block) : Except VError VerifiedBlock :=
  verify_block_default env (FullVerifier.verify_header env)
    (verify_uncles_default (FullVerifier.verify_header env)) current_chain new_block

/-- `DagVerifier::verify_block` (the default composition with the overridden
no-op uncle check). -/
def DagVerifier.verify_block (env : Env) (current_chain : ChainReader)
    (new_block : Block) : Except VError VerifiedBlock :=
  verify_block_default env (DagVerifier.verify_header env)
    DagVerifier.verify_uncles current_chain new_block

/-! Concrete fixtures used to instantiate the theorems below. -/

/-- A chain-head header at height 10. -/
def headH : BlockHeader :=
  { id := 1, parent_hash := 0, parents_hash := none, number := 10, timestamp := 1000,
    gas_used := 0, body_hash := 0, block_accumulator_root := 5 }

/-- Block info whose accumulator root matches `headH`. -/
def biH : BlockInfo := { block_accumulator_info := { accumulator_root := 5 } }

/-- A candidate header extending `headH` that passes every Basic check. -/
def hdrOK : BlockHeader :=
  { id := 2, parent_hash := 1, parents_hash := none, number := 11, timestamp := 1100,
    gas_used := 0, body_hash := 77, block_accumulator_root := 5 }

/-- An epoch spanning heights 0..100. -/
def epochH : Epoch :=
  { start_block_number := 0, end_block_number := 100, max_uncles_per_block := 10,
    block_gas_limit := 50 }

/-- A single-chain reader whose head is `headH`. -/
def readerH : ChainReader :=
  { status := { head := headH, info := biH }, current_header := headH, epoch := epochH,
    epoch_uncles := [], exist_block := fun _ => false, has_dag_block := fun _ => false,
    get_block_info := fun o => if o = some 1 then some biH else none,
    fork := fun _ => none, check_chain_type := .Single, now_millis := 1000 }

/-- `readerH` with all block infos missing. -/
def readerNoInfo : ChainReader :=
  { status := { head := headH, info := biH }, current_header := headH, epoch := epochH,
    epoch_uncles := [], exist_block := fun _ => false, has_dag_block := fun _ => false,
    get_block_info := fun _ => none,
    fork := fun _ => none, check_chain_type := .Single, now_millis := 1000 }

/-- A benign environment: constant body hash 0, nothing blacklisted, a
strategy that accepts everything. -/
def envH : Env :=
  { bodyHash := fun _ => 0, is_blacklisted := fun _ _ => false,
    strategyVerify := fun _ _ => .ok () }

/-- An environment whose body hash never matches the fixtures' headers. -/
def envBad : Env :=
  { bodyHash := fun _ => 999, is_blacklisted := fun _ _ => false,
    strategyVerify := fun _ _ => .ok () }

/-- An environment blacklisting sender 9. -/
def envBL : Env :=
  { bodyHash := fun _ => 0, is_blacklisted := fun t _ => t.sender = 9,
    strategyVerify := fun _ _ => .ok () }

/-- An environment whose consensus strategy fails with a
`ConsensusVerifyError`. -/
def envCV : Env :=
  { bodyHash := fun _ => 0, is_blacklisted := fun _ _ => false,
    strategyVerify := fun _ _ => .error (.consensusVerifyError "pow nonce mismatch") }

/-- A header at the wrong height (5 instead of 11). -/
def hdrBadNum : BlockHeader :=
  { id := 2, parent_hash := 1, parents_hash := none, number := 5, timestamp := 1100,
    gas_used := 0, body_hash := 0, block_accumulator_root := 5 }

/-- A block with a bad height (5 instead of 11) and a body hash that `envBad`
does not reproduce. -/
def blockBadBoth : Block :=
  { header := hdrBadNum, body := { transactions := [], uncles := none } }

/-- A block whose header passes the Basic checks but whose body hash `envBad`
does not reproduce. -/
def blockBadBody : Block :=
  { header := hdrOK, body := { transactions := [], uncles := none } }

/-- A block carrying one transaction from the blacklisted sender 9. -/
def blockBL : Block :=
  { header := hdrOK, body := { transactions := [{ sender := 9 }], uncles := none } }

/-- An uncle candidate at height 5 below parent hash 50. -/
def uncU : BlockHeader :=
  { id := 100, parent_hash := 50, parents_hash := none, number := 5, timestamp := 20,
    gas_used := 0, body_hash := 0, block_accumulator_root := 7 }

/-- The header of the block carrying the uncles in the fixtures. -/
def hdrU : BlockHeader :=
  { id := 77, parent_hash := 1, parents_hash := none, number := 11, timestamp := 1100,
    gas_used := 0, body_hash := 0, block_accumulator_root := 5 }

/-- Block info matching `uncU`'s accumulator root. -/
def bi7 : BlockInfo := { block_accumulator_info := { accumulator_root := 7 } }

/-- A header at height 4 with id 50, the parent of `uncU`. -/
def head50 : BlockHeader :=
  { id := 50, parent_hash := 0, parents_hash := none, number := 4, timestamp := 10,
    gas_used := 0, body_hash := 0, block_accumulator_root := 7 }

/-- `head50` misplaced at height 70. -/
def head50bad : BlockHeader :=
  { id := 50, parent_hash := 0, parents_hash := none, number := 70, timestamp := 10,
    gas_used := 0, body_hash := 0, block_accumulator_root := 7 }

/-- A forked reader (head at height 4, id 50) on which `uncU` passes
`BasicVerifier::verify_header`. -/
def branchGood : ChainReader :=
  { status := { head := head50, info := bi7 },
    current_header := headH, epoch := epochH, epoch_uncles := [],
    exist_block := fun _ => false, has_dag_block := fun _ => false,
    get_block_info := fun o => if o = some 50 then some bi7 else none,
    fork := fun _ => none, check_chain_type := .Single, now_millis := 0 }

/-- A forked reader (head at height 70) on which `uncU` fails the Basic height
check with a `Header` error. -/
def branchBad : ChainReader :=
  { status := { head := head50bad, info := bi7 },
    current_header := headH, epoch := epochH, epoch_uncles := [],
    exist_block := fun _ => false, has_dag_block := fun _ => false,
    get_block_info := fun o => if o = some 50 then some bi7 else none,
    fork := fun _ => none, check_chain_type := .Single, now_millis := 0 }

/-- A reader on which `uncU` is admissible and whose fork yields
`branchGood`. -/
def readerUa : ChainReader :=
  { status := { head := headH, info := biH }, current_header := hdrU, epoch := epochH,
    epoch_uncles := [], exist_block := fun x => x = 50, has_dag_block := fun _ => false,
    get_block_info := fun o => if o = some 1 then some biH else none,
    fork := fun _ => some branchGood, check_chain_type := .Single, now_millis := 1000 }

/-- Like `readerUa` but forking to `branchBad`, so the recursive header check
of the first uncle fails with a `Header` error. -/
def readerUb : ChainReader :=
  { status := { head := headH, info := biH }, current_header := hdrU, epoch := epochH,
    epoch_uncles := [], exist_block := fun x => x = 50, has_dag_block := fun _ => false,
    get_block_info := fun o => if o = some 1 then some biH else none,
    fork := fun _ => some branchBad, check_chain_type := .Single, now_millis := 1000 }

/-- A DAG-style header that declares no parents at all. -/
def hdrDagNoParents : BlockHeader :=
  { id := 3, parent_hash := 1, parents_hash := some [], number := 11, timestamp := 1100,
    gas_used := 0, body_hash := 0, block_accumulator_root := 5 }

/-- A header sitting exactly at the epoch's end height. -/
def hdrEnd : BlockHeader :=
  { id := 4, parent_hash := 1, parents_hash := none, number := 100, timestamp := 1100,
    gas_used := 0, body_hash := 0, block_accumulator_root := 5 }

/-! Named forms of the eight checks of `BasicVerifier::verify_header`, in
source order, and their diagnostic messages. -/

/-- Check 1: height continuity. -/
abbrev basicCond1 (r : ChainReader) (h : BlockHeader) : Prop :=
  satAdd64 r.status.head.number 1 = h.number

/-- Check 2: parent linkage. -/
abbrev basicCond2 (r : ChainReader) (h : BlockHeader) : Prop :=
  r.status.head.id = h.parent_hash

/-- Check 3: strictly increasing timestamp. -/
abbrev basicCond3 (r : ChainReader) (h : BlockHeader) : Prop :=
  r.status.head.timestamp < h.timestamp

/-- Check 4: future-time bound. -/
abbrev basicCond4 (r : ChainReader) (h : BlockHeader) : Prop :=
  h.timestamp ≤ satAdd64 ALLOWED_FUTURE_BLOCKTIME r.now_millis

/-- Check 5: epoch window. -/
abbrev basicCond5 (r : ChainReader) (h : BlockHeader) : Prop :=
  r.epoch.start_block_number < h.number ∧ h.number ≤ r.epoch.end_block_number

/-- Check 6: gas bound. -/
abbrev basicCond6 (r : ChainReader) (h : BlockHeader) : Prop :=
  h.gas_used ≤ r.epoch.block_gas_limit

/-- Check 7: block-accumulator continuity against the head's block info. -/
abbrev basicCond7 (bi : BlockInfo) (h : BlockHeader) : Prop :=
  bi.block_accumulator_info.accumulator_root = h.block_accumulator_root

/-- Check 8: single-chain type and no DAG parents. -/
abbrev basicCond8 (r : ChainReader) (h : BlockHeader) : Prop :=
  r.check_chain_type = ChainType.Single ∧ h.parents_hash.getD [] = []

/-- Diagnostic of check 1. -/
def basicMsg1 (r : ChainReader) (h : BlockHeader) : String :=
  "Invalid block: Unexpect block number, expect:" ++ toString (satAdd64 r.status.head.number 1) ++
    ", got: " ++ toString h.number ++ "."

/-- Diagnostic of check 2. -/
def basicMsg2 (r : ChainReader) (h : BlockHeader) : String :=
  "Invalid block: Parent id mismatch, expect:" ++ toString r.status.head.id ++
    ", got: " ++ toString h.parent_hash ++ ", number:" ++ toString h.number ++ "."

/-- Diagnostic of check 3. -/
def basicMsg3 (r : ChainReader) (h : BlockHeader) : String :=
  "Invalid block: block timestamp too old, parent time:" ++ toString r.status.head.timestamp ++
    ", block time: " ++ toString h.timestamp ++ ", number:" ++ toString h.number ++ "."

/-- Diagnostic of check 4. -/
def basicMsg4 (r : ChainReader) (h : BlockHeader) : String :=
  "Invalid block: block timestamp too new, now:" ++ toString r.now_millis ++
    ", block time:" ++ toString h.timestamp

/-- Diagnostic of check 5. -/
def basicMsg5 (r : ChainReader) (h : BlockHeader) : String :=
  "block number is " ++ toString h.number ++
    ", epoch start number is " ++ toString r.epoch.start_block_number ++
    ", epoch end number is " ++ toString r.epoch.end_block_number

/-- Diagnostic of check 6. -/
def basicMsg6 : String := "invalid block: gas_used should not greater than block_gas_limit"

/-- Diagnostic of check 7. -/
def basicMsg7 (bi : BlockInfo) (h : BlockHeader) : String :=
  "Block accumulator root miss match " ++
    toString bi.block_accumulator_info.accumulator_root ++
    " : " ++ toString h.block_accumulator_root

/-- Diagnostic of check 8. -/
def basicMsg8 (_r : ChainReader) (h : BlockHeader) : String :=
  "Single chain block is invalid: number " ++ toString h.number ++
    " parents_hash len " ++ toString (h.parents_hash.map List.length)

/-- Diagnostic of the body-hash check as a function of the inputs. -/
def bodyMismatchMsg (env : Env) (b : Block) : String :=
  "verify block body hash mismatch, expect: " ++ toString b.header.body_hash ++
    ", got: " ++ toString (env.bodyHash b.body)

/-- Diagnostic of the blacklist check. -/
def blacklistMsg : String :=
  "Invalid block: the sender of transaction in block must be not blacklisted"

/-! Helper lemmas about the `Except` plumbing. -/

theorem exceptOkBind {α β : Type} (a : α) (f : α → Except VError β) :
    (Except.ok a >>= f : Except VError β) = f a := rfl

theorem exceptErrBind {α β : Type} (e : VError) (f : α → Except VError β) :
    (Except.error e >>= f : Except VError β) = Except.error e := rfl

theorem verify_check_pos {c : Prop} [Decidable c] {f : VerifyBlockField} {msg : String}
    (h : c) : verify_check f c msg = .ok () := by
  simp [verify_check, h]

theorem verify_check_neg {c : Prop} [Decidable c] {f : VerifyBlockField} {msg : String}
    (h : ¬ c) : verify_check f c msg = .error (.verifyBlockFailed f msg) := by
  simp [verify_check, h]

theorem verify_check_bind {c : Prop} [Decidable c] {β : Type} (f : VerifyBlockField)
    (msg : String) (k : Unit → Except VError β) :
    (verify_check f c msg >>= k) =
      if c then k () else .error (.verifyBlockFailed f msg) := by
  by_cases h : c <;> simp [verify_check, h, exceptOkBind, exceptErrBind]

theorem check_bind_ok {c : Prop} [Decidable c] {f : VerifyBlockField} {msg : String}
    {β : Type} {k : Unit → Except VError β} {b : β}
    (h : (verify_check f c msg >>= k) = .ok b) : c ∧ k () = .ok b := by
  by_cases hc : c
  · exact ⟨hc, by simpa [verify_check, hc, exceptOkBind] using h⟩
  · simp [verify_check, hc, exceptErrBind] at h

theorem bind_ok_elim {α β : Type} {x : Except VError α} {g : α → Except VError β} {b : β}
    (h : (x >>= g) = .ok b) : ∃ a, x = .ok a ∧ g a = .ok b := by
  cases x with
  | ok a => exact ⟨a, rfl, h⟩
  | error e => rw [exceptErrBind] at h; cases h

/-- **C9.** `Verifier::from_str` succeeds exactly on the four strings of
`variants()` — mapping them, in order, to `Basic`, `Consensus`, `Full`,
`None` — and on any other string fails with an error carrying the offending
string. -/
theorem verifier_fromStr_spec :
    Verifier.variants.map Verifier.fromStr =
        [.ok .Basic, .ok .Consensus, .ok .Full, .ok .None] ∧
    (∀ s : String, (∃ v, Verifier.fromStr s = .ok v) ↔ s ∈ Verifier.variants) ∧
    (∀ s : String, s ∉ Verifier.variants →
      Verifier.fromStr s = .error ("invalid verifier type: " ++ s)) := by
  have herr : ∀ s : String, s ∉ Verifier.variants →
      Verifier.fromStr s = .error ("invalid verifier type: " ++ s) := by
    intro s hs
    unfold Verifier.fromStr
    split_ifs with h1 h2 h3 h4
    · exact absurd (by subst h1; simp [Verifier.variants]) hs
    · exact absurd (by subst h2; simp [Verifier.variants]) hs
    · exact absurd (by subst h3; simp [Verifier.variants]) hs
    · exact absurd (by subst h4; simp [Verifier.variants]) hs
    · rfl
  refine ⟨by rfl, ?_, herr⟩
  intro s
  constructor
  · rintro ⟨v, hv⟩
    by_contra hs
    rw [herr s hs] at hv
    simp at hv
  · intro hs
    simp only [Verifier.variants, List.mem_cons, List.not_mem_nil, or_false] at hs
    rcases hs with h | h | h | h <;> subst h
    · exact ⟨.Basic, rfl⟩
    · exact ⟨.Consensus, rfl⟩
    · exact ⟨.Full, rfl⟩
    · exact ⟨.None, rfl⟩

/-- Witness for C9: the non-variant string "bogus" is rejected with a message
carrying it. -/
theorem verifier_fromStr_spec_witness :
    "bogus" ∉ Verifier.variants ∧
    Verifier.fromStr "bogus" = .error ("invalid verifier type: " ++ "bogus") :=
  ⟨by decide, verifier_fromStr_spec.2.2 "bogus" (by decide)⟩

/-- **C6.** `can_be_uncle(reader, uncle)` is true exactly when the uncle's
height lies in `[epoch.start, epoch.end)`, its parent is on the chain, it is
not itself on the chain, it is not already a recorded epoch uncle, and its
height does not exceed the current head's. -/
theorem can_be_uncle_spec (r : ChainReader) (u : BlockHeader) :
    can_be_uncle r u = true ↔
      (r.epoch.start_block_number ≤ u.number ∧
       u.number < r.epoch.end_block_number ∧
       r.exist_block u.parent_hash = true ∧
       r.exist_block u.id = false ∧
       u.id ∉ r.epoch_uncles ∧
       u.number ≤ r.current_header.number) := by
  simp [can_be_uncle, Bool.and_eq_true, decide_eq_true_eq, Bool.not_eq_true',
    List.contains, and_assoc]

/-- **C7.** `ConsensusVerifier::verify_header` succeeds when the strategy
accepts; on strategy failure it wraps the error as a `Consensus` verification
failure exactly when it is a `ConsensusVerifyError`, and otherwise propagates
the original error unchanged. -/
theorem consensus_verify_header_spec (env : Env) (r : ChainReader) (h : BlockHeader) :
    (env.strategyVerify r h = .ok () →
      ConsensusVerifier.verify_header env r h = .ok ()) ∧
    (∀ m, env.strategyVerify r h = .error (.consensusVerifyError m) →
      ConsensusVerifier.verify_header env r h =
        .error (.verifyBlockFailed .Consensus m)) ∧
    (∀ e, env.strategyVerify r h = .error e → (∀ m, e ≠ .consensusVerifyError m) →
      ConsensusVerifier.verify_header env r h = .error e) := by
  refine ⟨?_, ?_, ?_⟩
  · intro hok; simp [ConsensusVerifier.verify_header, hok]
  · intro m hm; simp [ConsensusVerifier.verify_header, hm]
  · intro e he hne
    cases e with
    | verifyBlockFailed f m => simp [ConsensusVerifier.verify_header, he]
    | consensusVerifyError m => exact absurd rfl (hne m)
    | other m => simp [ConsensusVerifier.verify_header, he]

/-- Witness for C7: a strategy failing with a `ConsensusVerifyError` is wrapped
as a `Consensus` verification failure. -/
theorem consensus_verify_header_spec_witness :
    envCV.strategyVerify readerH hdrOK = .error (.consensusVerifyError "pow nonce mismatch") ∧
    ConsensusVerifier.verify_header envCV readerH hdrOK =
      .error (.verifyBlockFailed .Consensus "pow nonce mismatch") :=
  ⟨rfl, (consensus_verify_header_spec envCV readerH hdrOK).2.1 "pow nonce mismatch" rfl⟩

/-- **C4.** At the epoch-terminating height, the default `verify_uncles`
rejects any non-empty uncle list with the epoch-gate `Uncle` error (before any
count or per-uncle check), and accepts when the uncle list is empty. -/
theorem epoch_boundary_uncles_spec (vh : ChainReader → BlockHeader → Except VError Unit)
    (r : ChainReader) (uncles : List BlockHeader) (header : BlockHeader)
    (hend : header.number = r.epoch.end_block_number) :
    (uncles ≠ [] → verify_uncles_default vh r uncles header =
        .error (.verifyBlockFailed .Uncle
          "Invalid block: first block of epoch's uncles must be empty.")) ∧
    (uncles = [] → verify_uncles_default vh r uncles header = .ok ()) := by
  constructor
  · intro hne
    simp only [verify_uncles_default]
    rw [if_pos hend, verify_check_bind]
    simp [hne]
  · intro he
    subst he
    simp [verify_uncles_default, hend, verify_check]

/-- Witness for C4: a single uncle at the epoch boundary height 100 is
rejected with the epoch-gate message. -/
theorem epoch_boundary_uncles_spec_witness :
    hdrEnd.number = readerH.epoch.end_block_number ∧
    verify_uncles_default BasicVerifier.verify_header readerH [uncU] hdrEnd =
      .error (.verifyBlockFailed .Uncle
        "Invalid block: first block of epoch's uncles must be empty.") :=
  ⟨rfl, (epoch_boundary_uncles_spec BasicVerifier.verify_header readerH [uncU] hdrEnd
      rfl).1 (by decide)⟩

/-- Closed form of `BasicVerifier::verify_header` when the head's block info is
present: the eight checks are tried in source order and the first failure
reports its `Header` diagnostic. -/
theorem basic_vh_eq (r : ChainReader) (h : BlockHeader) (bi : BlockInfo)
    (hbi : r.get_block_info (some r.status.head.id) = some bi) :
    BasicVerifier.verify_header r h =
      (if basicCond1 r h then
        if basicCond2 r h then
          if basicCond3 r h then
            if basicCond4 r h then
              if basicCond5 r h then
                if basicCond6 r h then
                  if basicCond7 bi h then
                    if basicCond8 r h then .ok ()
                    else .error (.verifyBlockFailed .Header (basicMsg8 r h))
                  else .error (.verifyBlockFailed .Header (basicMsg7 bi h))
                else .error (.verifyBlockFailed .Header basicMsg6)
              else .error (.verifyBlockFailed .Header (basicMsg5 r h))
            else .error (.verifyBlockFailed .Header (basicMsg4 r h))
          else .error (.verifyBlockFailed .Header (basicMsg3 r h))
        else .error (.verifyBlockFailed .Header (basicMsg2 r h))
      else .error (.verifyBlockFailed .Header (basicMsg1 r h))) := by
  simp only [BasicVerifier.verify_header, verify_check_bind]
  rw [hbi]
  rfl

/-- **C1.** With the head's block info present, `BasicVerifier::verify_header`
succeeds exactly when the eight checks hold, and otherwise fails with the
`Header` diagnostic of the first check violated, in source order. -/
theorem basic_verify_header_spec (r : ChainReader) (h : BlockHeader) (bi : BlockInfo)
    (hbi : r.get_block_info (some r.status.head.id) = some bi) :
    (BasicVerifier.verify_header r h = .ok () ↔
      (basicCond1 r h ∧ basicCond2 r h ∧ basicCond3 r h ∧ basicCond4 r h ∧
       basicCond5 r h ∧ basicCond6 r h ∧ basicCond7 bi h ∧ basicCond8 r h)) ∧
    (¬ basicCond1 r h → BasicVerifier.verify_header r h =
      .error (.verifyBlockFailed .Header (basicMsg1 r h))) ∧
    (basicCond1 r h → ¬ basicCond2 r h → BasicVerifier.verify_header r h =
      .error (.verifyBlockFailed .Header (basicMsg2 r h))) ∧
    (basicCond1 r h → basicCond2 r h → ¬ basicCond3 r h →
      BasicVerifier.verify_header r h =
        .error (.verifyBlockFailed .Header (basicMsg3 r h))) ∧
    (basicCond1 r h → basicCond2 r h → basicCond3 r h → ¬ basicCond4 r h →
      BasicVerifier.verify_header r h =
        .error (.verifyBlockFailed .Header (basicMsg4 r h))) ∧
    (basicCond1 r h → basicCond2 r h → basicCond3 r h → basicCond4 r h →
      ¬ basicCond5 r h → BasicVerifier.verify_header r h =
        .error (.verifyBlockFailed .Header (basicMsg5 r h))) ∧
    (basicCond1 r h → basicCond2 r h → basicCond3 r h → basicCond4 r h →
      basicCond5 r h → ¬ basicCond6 r h → BasicVerifier.verify_header r h =
        .error (.verifyBlockFailed .Header basicMsg6)) ∧
    (basicCond1 r h → basicCond2 r h → basicCond3 r h → basicCond4 r h →
      basicCond5 r h → basicCond6 r h → ¬ basicCond7 bi h →
      BasicVerifier.verify_header r h =
        .error (.verifyBlockFailed .Header (basicMsg7 bi h))) ∧
    (basicCond1 r h → basicCond2 r h → basicCond3 r h → basicCond4 r h →
      basicCond5 r h → basicCond6 r h → basicCond7 bi h → ¬ basicCond8 r h →
      BasicVerifier.verify_header r h =
        .error (.verifyBlockFailed .Header (basicMsg8 r h))) := by
  have master := basic_vh_eq r h bi hbi
  refine ⟨?_, ?_, ?_, ?_, ?_, ?_, ?_, ?_, ?_⟩
  · rw [master]
    constructor
    · intro hok
      split_ifs at hok with h1 h2 h3 h4 h5 h6 h7 h8
      exact ⟨h1, h2, h3, h4, h5, h6, h7, h8⟩
    · rintro ⟨h1, h2, h3, h4, h5, h6, h7, h8⟩
      rw [if_pos h1, if_pos h2, if_pos h3, if_pos h4, if_pos h5, if_pos h6, if_pos h7,
        if_pos h8]
  · intro h1
    rw [master, if_neg h1]
  · intro h1 h2
    rw [master, if_pos h1, if_neg h2]
  · intro h1 h2 h3
    rw [master, if_pos h1, if_pos h2, if_neg h3]
  · intro h1 h2 h3 h4
    rw [master, if_pos h1, if_pos h2, if_pos h3, if_neg h4]
  · intro h1 h2 h3 h4 h5
    rw [master, if_pos h1, if_pos h2, if_pos h3, if_pos h4, if_neg h5]
  · intro h1 h2 h3 h4 h5 h6
    rw [master, if_pos h1, if_pos h2, if_pos h3, if_pos h4, if_pos h5, if_neg h6]
  · intro h1 h2 h3 h4 h5 h6 h7
    rw [master, if_pos h1, if_pos h2, if_pos h3, if_pos h4, if_pos h5, if_pos h6, if_neg h7]
  · intro h1 h2 h3 h4 h5 h6 h7 h8
    rw [master, if_pos h1, if_pos h2, if_pos h3, if_pos h4, if_pos h5, if_pos h6,
      if_pos h7, if_neg h8]

/-- Witness for C1: a concrete reader and candidate header with the head's
block info present, on which the characterisation is instantiated. -/
theorem basic_verify_header_spec_witness :
    readerH.get_block_info (some readerH.status.head.id) = some biH ∧
    (BasicVerifier.verify_header readerH hdrOK = .ok () ↔
      (basicCond1 readerH hdrOK ∧ basicCond2 readerH hdrOK ∧ basicCond3 readerH hdrOK ∧
       basicCond4 readerH hdrOK ∧ basicCond5 readerH hdrOK ∧ basicCond6 readerH hdrOK ∧
       basicCond7 biH hdrOK ∧ basicCond8 readerH hdrOK)) :=
  ⟨rfl, (basic_verify_header_spec readerH hdrOK biH rfl).1⟩

/-- **C8.** When the six earlier checks pass and the head's block info is
absent, `BasicVerifier::verify_header` surfaces the opaque "Can not find block
info" error, which is not a `VerifyBlockFailed` of any category. -/
theorem basic_missing_block_info_spec (r : ChainReader) (h : BlockHeader)
    (h1 : basicCond1 r h) (h2 : basicCond2 r h) (h3 : basicCond3 r h)
    (h4 : basicCond4 r h) (h5 : basicCond5 r h) (h6 : basicCond6 r h)
    (hnone : r.get_block_info (some r.status.head.id) = none) :
    BasicVerifier.verify_header r h =
      .error (.other ("Can not find block info by head id: " ++
        toString r.status.head.id)) ∧
    ∀ f m, VError.other ("Can not find block info by head id: " ++
        toString r.status.head.id) ≠ VError.verifyBlockFailed f m := by
  constructor
  · simp only [BasicVerifier.verify_header, verify_check_bind]
    rw [hnone, if_pos h1, if_pos h2, if_pos h3, if_pos h4, if_pos h5, if_pos h6]
  · intro f m hcontra
    cases hcontra

/-- Witness for C8: a reader with every block info missing, on which the six
earlier checks pass, surfaces the opaque error. -/
theorem basic_missing_block_info_spec_witness :
    readerNoInfo.get_block_info (some readerNoInfo.status.head.id) = none ∧
    BasicVerifier.verify_header readerNoInfo hdrOK =
      .error (.other ("Can not find block info by head id: " ++
        toString readerNoInfo.status.head.id)) :=
  ⟨rfl, (basic_missing_block_info_spec readerNoInfo hdrOK (by decide) (by decide)
      (by decide) (by decide) (by decide) (by decide) rfl).1⟩

/-- Under a body-hash mismatch, the default `verify_block` composition always
rejects, and rejects with the `Body` mismatch error as soon as the blacklist
and header steps pass. -/
theorem verify_block_default_body_mismatch (env : Env)
    (vh : ChainReader → BlockHeader → Except VError Unit)
    (vu : ChainReader → List BlockHeader → BlockHeader → Except VError Unit)
    (r : ChainReader) (b : Block) (hm : env.bodyHash b.body ≠ b.header.body_hash) :
    (∃ e, verify_block_default env vh vu r b = .error e) ∧
    (verify_blacklisted_txns env b = .ok () → vh r b.header = .ok () →
      verify_block_default env vh vu r b =
        .error (.verifyBlockFailed .Body (bodyMismatchMsg env b))) := by
  have hbody : StaticVerifier.verify_body_hash env b =
      .error (.verifyBlockFailed .Body (bodyMismatchMsg env b)) := by
    simp only [StaticVerifier.verify_body_hash]
    rw [verify_check_neg hm]
    rfl
  constructor
  · cases hbl : verify_blacklisted_txns env b with
    | error e => exact ⟨e, by simp [verify_block_default, hbl, exceptErrBind]⟩
    | ok u =>
      cases u
      cases hvh : vh r b.header with
      | error e =>
        exact ⟨e, by simp [verify_block_default, hbl, hvh, exceptOkBind, exceptErrBind]⟩
      | ok u2 =>
        cases u2
        exact ⟨.verifyBlockFailed .Body (bodyMismatchMsg env b), by
          simp [verify_block_default, hbl, hvh, hbody, exceptOkBind, exceptErrBind]⟩
  · intro hbl hvh
    simp [verify_block_default, hbl, hvh, hbody, exceptOkBind, exceptErrBind]

/-- **C2 (amended).** Under a body-hash mismatch every non-None verifier
(Basic, Consensus, Full, Dag) rejects the block; the rejection carries the
`Body` mismatch diagnostic whenever the blacklist step and the strategy's
header step succeed (the source runs `verify_header` before the body-hash
check, so a block that also fails a header check is rejected with that
category instead). -/
theorem body_hash_mismatch_spec (env : Env) (r : ChainReader) (b : Block)
    (hm : env.bodyHash b.body ≠ b.header.body_hash) :
    ((∃ e, BasicVerifier.verify_block env r b = .error e) ∧
     (∃ e, ConsensusVerifier.verify_block env r b = .error e) ∧
     (∃ e, FullVerifier.verify_block env r b = .error e) ∧
     (∃ e, DagVerifier.verify_block env r b = .error e)) ∧
    (verify_blacklisted_txns env b = .ok () →
      ((BasicVerifier.verify_header r b.header = .ok () →
        BasicVerifier.verify_block env r b =
          .error (.verifyBlockFailed .Body (bodyMismatchMsg env b))) ∧
       (ConsensusVerifier.verify_header env r b.header = .ok () →
        ConsensusVerifier.verify_block env r b =
          .error (.verifyBlockFailed .Body (bodyMismatchMsg env b))) ∧
       (FullVerifier.verify_header env r b.header = .ok () →
        FullVerifier.verify_block env r b =
          .error (.verifyBlockFailed .Body (bodyMismatchMsg env b))) ∧
       (DagVerifier.verify_header env r b.header = .ok () →
        DagVerifier.verify_block env r b =
          .error (.verifyBlockFailed .Body (bodyMismatchMsg env b))))) := by
  refine ⟨⟨?_, ?_, ?_, ?_⟩, fun hbl => ⟨fun hvh => ?_, fun hvh => ?_, fun hvh => ?_,
    fun hvh => ?_⟩⟩
  · exact (verify_block_default_body_mismatch env BasicVerifier.verify_header
      (verify_uncles_default BasicVerifier.verify_header) r b hm).1
  · exact (verify_block_default_body_mismatch env (ConsensusVerifier.verify_header env)
      (verify_uncles_default (ConsensusVerifier.verify_header env)) r b hm).1
  · exact (verify_block_default_body_mismatch env (FullVerifier.verify_header env)
      (verify_uncles_default (FullVerifier.verify_header env)) r b hm).1
  · exact (verify_block_default_body_mismatch env (DagVerifier.verify_header env)
      DagVerifier.verify_uncles r b hm).1
  · exact (verify_block_default_body_mismatch env BasicVerifier.verify_header
      (verify_uncles_default BasicVerifier.verify_header) r b hm).2 hbl hvh
  · exact (verify_block_default_body_mismatch env (ConsensusVerifier.verify_header env)
      (verify_uncles_default (ConsensusVerifier.verify_header env)) r b hm).2 hbl hvh
  · exact (verify_block_default_body_mismatch env (FullVerifier.verify_header env)
      (verify_uncles_default (FullVerifier.verify_header env)) r b hm).2 hbl hvh
  · exact (verify_block_default_body_mismatch env (DagVerifier.verify_header env)
      DagVerifier.verify_uncles r b hm).2 hbl hvh

/-- Counterexample to C2 as stated: a block whose body hash mismatches but
whose header is also invalid is rejected by `BasicVerifier::verify_block` with
a `Header` error, not a `Body` one. -/
theorem body_hash_mismatch_cex :
    envBad.bodyHash blockBadBoth.body ≠ blockBadBoth.header.body_hash ∧
    BasicVerifier.verify_block envBad readerH blockBadBoth =
      .error (.verifyBlockFailed .Header (basicMsg1 readerH blockBadBoth.header)) ∧
    VerifyBlockField.Header ≠ VerifyBlockField.Body := by
  refine ⟨by decide, by rfl, by decide⟩

/-- Witness for C2 (amended): its rejection conclusion at a concrete
mismatching block. -/
theorem body_hash_mismatch_spec_witness :
    envBad.bodyHash blockBadBody.body ≠ blockBadBody.header.body_hash ∧
    (∃ e, BasicVerifier.verify_block envBad readerH blockBadBody = .error e) :=
  ⟨by decide, (body_hash_mismatch_spec envBad readerH blockBadBody (by decide)).1.1⟩

/-- The blacklist loop fails with the constant `Body` diagnostic as soon as
some transaction of the list is blacklisted at the given height. -/
theorem blacklisted_loop_err (env : Env) (n : Nat) :
    ∀ ts : List Transaction, (∃ t ∈ ts, env.is_blacklisted t n = true) →
      blacklisted_txns_loop env n ts = .error (.verifyBlockFailed .Body blacklistMsg) := by
  intro ts
  induction ts with
  | nil => rintro ⟨t, ht, _⟩; cases ht
  | cons t rest ih =>
    rintro ⟨u, hu, hbl⟩
    by_cases hbt : env.is_blacklisted t n = true
    · simp only [blacklisted_txns_loop]
      rw [verify_check_neg (by simp [hbt]), exceptErrBind]
      rfl
    · rcases List.mem_cons.mp hu with he | hr
      · exact absurd (he ▸ hbl) hbt
      · simp only [blacklisted_txns_loop]
        rw [verify_check_pos (by revert hbt; cases env.is_blacklisted t n <;> simp),
          exceptOkBind]
        exact ih ⟨u, hr, hbl⟩

/-- **C10.** A block containing a transaction whose sender is blacklisted at
the block's height is rejected by every default-composition verifier (Basic,
Consensus, Full, Dag) with the constant `Body` blacklist error — the blacklist
step runs before `verify_header`, so the verdict holds for every reader state,
valid header or not. -/
theorem blacklisted_txn_rejected_spec (env : Env) (r : ChainReader) (b : Block)
    (hb : ∃ t ∈ b.transactions, env.is_blacklisted t b.header.number = true) :
    BasicVerifier.verify_block env r b = .error (.verifyBlockFailed .Body blacklistMsg) ∧
    ConsensusVerifier.verify_block env r b =
      .error (.verifyBlockFailed .Body blacklistMsg) ∧
    FullVerifier.verify_block env r b = .error (.verifyBlockFailed .Body blacklistMsg) ∧
    DagVerifier.verify_block env r b = .error (.verifyBlockFailed .Body blacklistMsg) := by
  have hloop : verify_blacklisted_txns env b =
      .error (.verifyBlockFailed .Body blacklistMsg) :=
    blacklisted_loop_err env b.header.number b.transactions hb
  have hgen : ∀ (vh : ChainReader → BlockHeader → Except VError Unit)
      (vu : ChainReader → List BlockHeader → BlockHeader → Except VError Unit),
      verify_block_default env vh vu r b =
        .error (.verifyBlockFailed .Body blacklistMsg) := by
    intro vh vu
    simp [verify_block_default, hloop, exceptErrBind]
  exact ⟨hgen _ _, hgen _ _, hgen _ _, hgen _ _⟩

/-- Witness for C10: a block carrying one transaction from blacklisted sender
9 is rejected with the `Body` blacklist error. -/
theorem blacklisted_txn_rejected_spec_witness :
    (∃ t ∈ blockBL.transactions, envBL.is_blacklisted t blockBL.header.number = true) ∧
    BasicVerifier.verify_block envBL readerH blockBL =
      .error (.verifyBlockFailed .Body blacklistMsg) :=
  ⟨by decide, (blacklisted_txn_rejected_spec envBL readerH blockBL (by decide)).1⟩

/-- If the per-uncle loop succeeds, the processed uncle ids are pairwise
distinct and disjoint from the already-seen set. -/
theorem uncles_loop_ok_ids (vh : ChainReader → BlockHeader → Except VError Unit)
    (r : ChainReader) (header : BlockHeader) :
    ∀ (seen : List Hash) (l : List BlockHeader),
      uncles_loop vh r header seen l = .ok () →
      ((l.map BlockHeader.id).Nodup ∧ ∀ u ∈ l, u.id ∉ seen) := by
  intro seen l
  induction l generalizing seen with
  | nil => intro _; exact ⟨List.nodup_nil, by simp⟩
  | cons u rest ih =>
    intro h
    simp only [uncles_loop] at h
    obtain ⟨hA, h⟩ := check_bind_ok h
    obtain ⟨hB, h⟩ := check_bind_ok h
    obtain ⟨hC, h⟩ := check_bind_ok h
    cases hf : r.fork u.parent_hash with
    | none => rw [hf] at h; cases h
    | some branch =>
      rw [hf] at h
      obtain ⟨a, _, h⟩ := bind_ok_elim h
      obtain ⟨hnd, hnin⟩ := ih (u.id :: seen) h
      refine ⟨?_, ?_⟩
      · simp only [List.map_cons, List.nodup_cons]
        refine ⟨?_, hnd⟩
        intro hmem
        rcases List.mem_map.mp hmem with ⟨v, hv, hid⟩
        exact (hnin v hv) (hid ▸ List.mem_cons_self _ _)
      · intro v hv
        rcases List.mem_cons.mp hv with he | hr2
        · subst he; exact hA
        · intro hvseen
          exact (hnin v hr2) (List.mem_cons_of_mem _ hvseen)

/-- A duplicate uncle id always makes the default `verify_uncles` fail with
some error. -/
theorem verify_uncles_dup_rejects (vh : ChainReader → BlockHeader → Except VError Unit)
    (r : ChainReader) (uncles : List BlockHeader) (header : BlockHeader)
    (hdup : ¬ (uncles.map BlockHeader.id).Nodup) :
    ∃ e, verify_uncles_default vh r uncles header = .error e := by
  cases hres : verify_uncles_default vh r uncles header with
  | error e => exact ⟨e, rfl⟩
  | ok a =>
    exfalso
    cases a
    have hne : uncles ≠ [] := by
      rintro rfl
      exact hdup (by simp)
    simp only [verify_uncles_default] at hres
    by_cases hsw : header.number = r.epoch.end_block_number
    · rw [if_pos hsw, verify_check_neg hne, exceptErrBind] at hres
      cases hres
    · rw [if_neg hsw] at hres
      simp only [pure_bind] at hres
      rw [if_neg hne] at hres
      obtain ⟨hcount, hloop⟩ := check_bind_ok hres
      obtain ⟨hnd, _⟩ := uncles_loop_ok_ids vh r header [] uncles hloop
      exact hdup hnd

/-- **C5 (amended).** A duplicate uncle id always makes the default
`verify_uncles` reject the block; in the S5 scenario — the repeated uncle
itself passing every per-uncle check, under an epoch allowing two uncles — the
rejection is the `Uncle` "repeat uncle" error.  (The category is not `Uncle`
for every duplicate-carrying list: an earlier per-uncle step can fail first
with another category, see the counterexample.) -/
theorem duplicate_uncles_spec :
    (∀ (vh : ChainReader → BlockHeader → Except VError Unit) (r : ChainReader)
        (uncles : List BlockHeader) (header : BlockHeader),
      ¬ (uncles.map BlockHeader.id).Nodup →
      ∃ e, verify_uncles_default vh r uncles header = .error e) ∧
    verify_uncles_default BasicVerifier.verify_header readerUa [uncU, uncU] hdrU =
      .error (.verifyBlockFailed .Uncle "repeat uncle 100 in current block 77") := by
  exact ⟨verify_uncles_dup_rejects, by rfl⟩

/-- Counterexample to C5 as stated: with the same duplicated uncle but a fork
on which the uncle's recursive header check fails, the rejection carries
category `Header`, not `Uncle`. -/
theorem duplicate_uncles_cex :
    ¬ ([uncU, uncU].map BlockHeader.id).Nodup ∧
    verify_uncles_default BasicVerifier.verify_header readerUb [uncU, uncU] hdrU =
      .error (.verifyBlockFailed .Header
        "Invalid block: Unexpect block number, expect:71, got: 5.") ∧
    VerifyBlockField.Header ≠ VerifyBlockField.Uncle := by
  refine ⟨by decide, by rfl, by decide⟩

/-- Witness for C5 (amended): the universal rejection applied to the concrete
duplicated uncle list. -/
theorem duplicate_uncles_spec_witness :
    ¬ ([uncU, uncU].map BlockHeader.id).Nodup ∧
    (∃ e, verify_uncles_default BasicVerifier.verify_header readerUa [uncU, uncU] hdrU =
      .error e) :=
  ⟨by decide, duplicate_uncles_spec.1 BasicVerifier.verify_header readerUa [uncU, uncU]
    hdrU (by decide)⟩

/-- `dedupAdj` only drops elements. -/
theorem dedupAdj_sublist : ∀ l : List Hash, List.Sublist (dedupAdj l) l := by
  intro l
  induction l using dedupAdj.induct with
  | case1 => simp [dedupAdj]
  | case2 a => simp [dedupAdj]
  | case3 a rest ih =>
    simp only [dedupAdj, if_pos rfl]
    exact ih.cons a
  | case4 a b rest hab ih =>
    simp only [dedupAdj, if_neg hab]
    exact ih.cons₂ a

/-- `dedupAdj` keeps exactly the members of the list. -/
theorem mem_dedupAdj : ∀ (l : List Hash) (x : Hash), x ∈ dedupAdj l ↔ x ∈ l := by
  intro l
  induction l using dedupAdj.induct with
  | case1 => simp [dedupAdj]
  | case2 a => simp [dedupAdj]
  | case3 a rest ih =>
    intro x
    rw [show dedupAdj (a :: a :: rest) = dedupAdj (a :: rest) from by simp [dedupAdj]]
    rw [ih x]
    simp only [List.mem_cons]
    tauto
  | case4 a b rest hab ih =>
    intro x
    simp only [dedupAdj, if_neg hab, List.mem_cons]
    rw [ih x]
    simp only [List.mem_cons]

/-- On a duplicate-free list `dedupAdj` is the identity. -/
theorem dedupAdj_eq_of_nodup : ∀ l : List Hash, l.Nodup → dedupAdj l = l := by
  intro l
  induction l using dedupAdj.induct with
  | case1 => intro _; rfl
  | case2 a => intro _; rfl
  | case3 a rest _ =>
    intro hnd
    exact absurd (List.mem_cons_self _ _) (List.nodup_cons.mp hnd).1
  | case4 a b rest hab ih =>
    intro hnd
    simp only [dedupAdj, if_neg hab]
    rw [ih (List.nodup_cons.mp hnd).2]

/-- On a sorted list carrying a duplicate, `dedupAdj` strictly shrinks. -/
theorem dedupAdj_length_lt :
    ∀ l : List Hash, l.Sorted (· ≤ ·) → ¬ l.Nodup → (dedupAdj l).length < l.length := by
  intro l
  induction l using dedupAdj.induct with
  | case1 => intro _ hnd; exact absurd List.nodup_nil hnd
  | case2 a => intro _ hnd; exact absurd (List.nodup_singleton a) hnd
  | case3 a rest _ =>
    intro _ _
    rw [show dedupAdj (a :: a :: rest) = dedupAdj (a :: rest) from by simp [dedupAdj]]
    simp only [List.length_cons]
    exact Nat.lt_succ_of_le (dedupAdj_sublist (a :: rest)).length_le
  | case4 a b rest hab ih =>
    intro hs hnd
    have htail : (b :: rest).Sorted (· ≤ ·) := hs.of_cons
    have hanin : a ∉ b :: rest := by
      intro hmem
      rcases List.mem_cons.mp hmem with he | hr
      · exact hab he
      · have h1 : a ≤ b := (List.sorted_cons.mp hs).1 b (List.mem_cons_self _ _)
        have h2 : b ≤ a := (List.sorted_cons.mp htail).1 a hr
        exact hab (le_antisymm h1 h2)
    have hnd' : ¬ (b :: rest).Nodup := by
      intro hok
      exact hnd (List.nodup_cons.mpr ⟨hanin, hok⟩)
    simp only [dedupAdj, if_neg hab, List.length_cons]
    exact Nat.succ_lt_succ (ih htail hnd')

/-- Sorting then deduplicating preserves length exactly on duplicate-free
lists. -/
theorem sortDedup_length_of_nodup (l : List Hash) (h : l.Nodup) :
    (sortDedup l).length = l.length := by
  have hperm := List.perm_insertionSort (· ≤ ·) l
  unfold sortDedup
  rw [dedupAdj_eq_of_nodup _ (hperm.nodup_iff.mpr h)]
  exact hperm.length_eq

/-- Sorting then deduplicating shrinks a list with duplicates. -/
theorem sortDedup_length_ne_of_dup (l : List Hash) (h : ¬ l.Nodup) :
    (sortDedup l).length ≠ l.length := by
  have hperm := List.perm_insertionSort (· ≤ ·) l
  have hsorted := List.sorted_insertionSort (· ≤ ·) l
  have hlt : (sortDedup l).length < (l.insertionSort (· ≤ ·)).length :=
    dedupAdj_length_lt _ hsorted (fun hnd => h (hperm.nodup_iff.mp hnd))
  rw [hperm.length_eq] at hlt
  exact Nat.ne_of_lt hlt

/-- Membership is unchanged by sort-then-dedup. -/
theorem mem_sortDedup (l : List Hash) (x : Hash) : x ∈ sortDedup l ↔ x ∈ l := by
  unfold sortDedup
  rw [mem_dedupAdj, List.mem_insertionSort]

/-- **C3.** `DagVerifier::verify_header` rejects with a `Header` error every
header whose declared parent list is empty, has a duplicate (the check being
`len(parents) == len(dedup(sort(parents)))`), or lacks the selected parent;
and, with a well-formed parent list, also when the selected parent's block
info is absent. -/
theorem dag_verify_header_rejects_spec (env : Env) (r : ChainReader) (h : BlockHeader) :
    ((h.parents_hash.getD [] = [] ∨ ¬ (h.parents_hash.getD []).Nodup ∨
        h.parent_hash ∉ h.parents_hash.getD []) →
      ∃ m, DagVerifier.verify_header env r h = .error (.verifyBlockFailed .Header m)) ∧
    (h.parent_hash ∈ h.parents_hash.getD [] → (h.parents_hash.getD []).Nodup →
      r.get_block_info (some h.parent_hash) = none →
      ∃ m, DagVerifier.verify_header env r h = .error (.verifyBlockFailed .Header m)) := by
  constructor
  · intro hbad
    simp only [DagVerifier.verify_header, verify_check_bind]
    by_cases hc1 : (¬ sortDedup (h.parents_hash.getD []) = [] ∧
        (h.parents_hash.getD []).length = (sortDedup (h.parents_hash.getD [])).length)
    · rw [if_pos hc1]
      have hnin : h.parent_hash ∉ sortDedup (h.parents_hash.getD []) := by
        rcases hbad with hnil | hdup | hnin
        · exact absurd (by rw [hnil]; rfl) hc1.1
        · exact absurd hc1.2.symm (sortDedup_length_ne_of_dup _ hdup)
        · intro hmem
          exact hnin ((mem_sortDedup _ _).mp hmem)
      rw [if_neg (fun hc2 => hnin hc2.1)]
      exact ⟨_, rfl⟩
    · rw [if_neg hc1]
      exact ⟨_, rfl⟩
  · intro hmem hnd hnone
    simp only [DagVerifier.verify_header, verify_check_bind]
    have hc1 : (¬ sortDedup (h.parents_hash.getD []) = [] ∧
        (h.parents_hash.getD []).length = (sortDedup (h.parents_hash.getD [])).length) :=
      ⟨List.ne_nil_of_mem ((mem_sortDedup _ _).mpr hmem),
        (sortDedup_length_of_nodup _ hnd).symm⟩
    rw [if_pos hc1]
    have hc2 : ¬ (h.parent_hash ∈ sortDedup (h.parents_hash.getD []) ∧
        (r.get_block_info (some h.parent_hash)).isSome = true) := by
      rintro ⟨_, hsome⟩
      rw [hnone] at hsome
      cases hsome
    rw [if_neg hc2]
    exact ⟨_, rfl⟩

/-- Witness for C3: a DAG-shaped header declaring no parents at all is
rejected with a `Header` error. -/
theorem dag_verify_header_rejects_spec_witness :
    hdrDagNoParents.parents_hash.getD [] = [] ∧
    (∃ m, DagVerifier.verify_header envH readerH hdrDagNoParents =
      .error (.verifyBlockFailed .Header m)) :=
  ⟨rfl, (dag_verify_header_rejects_spec envH readerH hdrDagNoParents).1 (Or.inl rfl)⟩
